import Mathlib

/-!
Verification of the mini order-processing service core.

A shallow embedding of the order-pricing / inventory core of the service:

* `src/src/services/order_service.py` — `OrderService.create_order`
* `src/src/services/product_service.py` — `ProductService.update_product_inventory`
* `src/src/db/models/model.py` — the `Product` / `Order` / `OrderItem` rows
* `src/src/schemas/schema.py` — the request shapes

Modelling conventions:

* The persisted database state is the product table, a `List Product` in
  insertion order; `query(Product).filter(Product.id == pid).first()` becomes
  `findProduct`, which returns the first row with the given id.
* Python `float` money values are carried as exact rationals `ℚ` (the spec
  notes values are carried at full precision with no internal rounding);
  Python `int` becomes `Int`.
* Raising `HTTPException` becomes returning an error value carrying the
  status code's determining constructor and exactly the data interpolated
  into the detail message; since nothing is committed (or a rollback runs),
  the persisted catalog is returned unchanged on every error.
* The `self.db.commit()` call can raise `IntegrityError` (an environment
  event, not decided by this code); `createOrder` therefore takes a
  `commitOk : Bool` describing the storage layer's answer, and on `false`
  models lines 117–119: rollback and a 400 "Database error" response.
-/

set_option autoImplicit false

namespace OrderProcessing

/-- A row of the `products` table (model.py, class `Product`). -/
structure Product where
  id : Int
  name : String
  descr : String
  price : ℚ
  inventory : Int
  deriving Repr, DecidableEq

/-- The persisted `products` table, rows in insertion order. -/
abbrev Catalog := List Product

/-- One requested line of an order (schema.py, `OrderItemCreate`):
`product_id : int`, `quantity : int` (validated `> 0` at the boundary). -/
structure OrderItemCreate where
  product_id : Int
  quantity : Int
  deriving Repr, DecidableEq

/-- An order-creation request (schema.py, `OrderCreate`).  `items` is a plain
list: the schema puts no lower bound on its length. -/
structure OrderCreate where
  customer_name : String
  customer_email : String
  items : List OrderItemCreate
  deriving Repr, DecidableEq

/-- The environment configuration read once at import time
(order_service.py lines 11–14). -/
structure Config where
  BULK_DISCOUNT_THRESHOLD : Int
  BULK_DISCOUNT_PERCENT : Int
  FREE_SHIPPING_THRESHOLD : ℚ
  SHIPPING_FEE : ℚ
  deriving Repr, DecidableEq

/-- The default configuration documented in the spec: threshold 5,
discount 10 %, free shipping from $50, $5 shipping fee. -/
def defaultConfig : Config :=
  { BULK_DISCOUNT_THRESHOLD := 5
    BULK_DISCOUNT_PERCENT := 10
    FREE_SHIPPING_THRESHOLD := 50
    SHIPPING_FEE := 5 }

/-- The failures `create_order` can raise (order_service.py lines 31, 35–38,
119), each carrying exactly the data interpolated into the `detail` string:
the not-found message holds the requested product id; the inventory message
holds the product *name*, the requested quantity and the available stock;
the commit failure holds no order data. -/
inductive OrderError where
  | productNotFound (product_id : Int)
  | insufficientInventory (name : String) (requested : Int) (available : Int)
  | databaseError
  deriving Repr, DecidableEq

/-- The HTTP status code attached to each `HTTPException` in `create_order`:
404 for a missing product, 400 for insufficient inventory, and 400 for the
`IntegrityError` handler at line 119. -/
def OrderError.status : OrderError → Nat
  | .productNotFound _ => 404
  | .insufficientInventory _ _ _ => 400
  | .databaseError => 400

/-- `self.db.query(model.Product).filter(model.Product.id == pid).first()`:
the first row of the table whose id matches, if any. -/
def findProduct (cat : Catalog) (pid : Int) : Option Product :=
  cat.find? (fun p => p.id == pid)

/-- One entry of the `order_items` list built at lines 52–57 (and persisted as
an `OrderItem` row at lines 78–85). -/
structure PricedItem where
  product_id : Int
  quantity : Int
  unit_price : ℚ
  discount_applied : Bool
  deriving Repr, DecidableEq

/-- The validation / pricing loop of `create_order` (lines 27–57): for each
requested line in order, look the product up (404 if absent), check
`product.inventory < item.quantity` (400 if so), apply the bulk discount when
`item.quantity ≥ BULK_DISCOUNT_THRESHOLD`, and accumulate
`unit_price * quantity` into the subtotal.  Returns the priced lines in
request order together with the subtotal, or the first line's failure. -/
def priceItems (cfg : Config) (cat : Catalog) :
    List OrderItemCreate → Except OrderError (List PricedItem × ℚ)
  | [] => .ok ([], 0)
  | item :: rest =>
    match findProduct cat item.product_id with
    | none => .error (.productNotFound item.product_id)
    | some product =>
      if product.inventory < item.quantity then
        .error (.insufficientInventory product.name item.quantity product.inventory)
      else
        let discount_applied : Bool := decide (cfg.BULK_DISCOUNT_THRESHOLD ≤ item.quantity)
        let unit_price : ℚ :=
          if cfg.BULK_DISCOUNT_THRESHOLD ≤ item.quantity then
            product.price * (1 - (cfg.BULK_DISCOUNT_PERCENT : ℚ) / 100)
          else
            product.price
        match priceItems cfg cat rest with
        | .error e => .error e
        | .ok (pricedRest, subRest) =>
          .ok ({ product_id := item.product_id
                 quantity := item.quantity
                 unit_price := unit_price
                 discount_applied := discount_applied } :: pricedRest,
               unit_price * (item.quantity : ℚ) + subRest)

/-- Apply `f` to the first row with the given id, leaving every other row in
place: this is `query(...).first()` followed by an attribute assignment. -/
def updateFirst (cat : Catalog) (pid : Int) (f : Product → Product) : Catalog :=
  match cat with
  | [] => []
  | p :: rest => if p.id = pid then f p :: rest else p :: updateFirst rest pid f

/-- The stock-mutation half of the persistence loop (lines 77–89): for every
requested line, in order, `product.inventory -= item_request.quantity` on the
row fetched by id. -/
def decrementStock (cat : Catalog) : List OrderItemCreate → Catalog
  | [] => cat
  | item :: rest =>
      decrementStock
        (updateFirst cat item.product_id
          (fun p => { p with inventory := p.inventory - item.quantity })) rest

/-- The persisted `Order` row together with its `OrderItem` children
(model.py; built at lines 64–70 and 78–85, echoed in the response at
lines 96–113).  Generated id and server timestamp are omitted. -/
structure OrderRecord where
  customer_name : String
  customer_email : String
  items : List PricedItem
  subtotal : ℚ
  shipping_fee : ℚ
  total_amount : ℚ
  deriving Repr, DecidableEq

/-- `OrderService.create_order` (order_service.py lines 21–119).  Returns the
committed order and the catalog after the stock decrements on success; on any
failure the persisted catalog is unchanged (the pricing errors are raised
before anything is written, and a failing commit is rolled back at
line 118). -/
def createOrder (cfg : Config) (cat : Catalog) (order : OrderCreate)
    (commitOk : Bool) : Except OrderError OrderRecord × Catalog :=
  match priceItems cfg cat order.items with
  | .error e => (.error e, cat)
  | .ok (order_items, subtotal) =>
    let shipping_fee : ℚ :=
      if subtotal < cfg.FREE_SHIPPING_THRESHOLD then cfg.SHIPPING_FEE else 0
    let total_amount := subtotal + shipping_fee
    let newCat := decrementStock cat order.items
    if commitOk then
      (.ok { customer_name := order.customer_name
             customer_email := order.customer_email
             items := order_items
             subtotal := subtotal
             shipping_fee := shipping_fee
             total_amount := total_amount }, newCat)
    else
      (.error .databaseError, cat)

/-- The failures `update_product_inventory` can raise (product_service.py
lines 47–58): 404 when the product is absent, 400 with the current stock and
the requested change when the adjustment would go negative. -/
inductive AdjustError where
  | notFound
  | invalidAdjustment (current : Int) (requestedChange : Int)
  deriving Repr, DecidableEq

/-- The HTTP status code of each `HTTPException` in
`update_product_inventory`. -/
def AdjustError.status : AdjustError → Nat
  | .notFound => 404
  | .invalidAdjustment _ _ => 400

/-- `ProductService.update_product_inventory` (product_service.py
lines 40–69): look the product up, compute
`new_inventory = product.inventory + quantity`, reject a negative result
leaving the row untouched, otherwise write the new stock.  Returns the
updated row and the new catalog. -/
def update_product_inventory (cat : Catalog) (product_id : Int)
    (quantity : Int) : Except AdjustError Product × Catalog :=
  match findProduct cat product_id with
  | none => (.error .notFound, cat)
  | some product =>
    let new_inventory := product.inventory + quantity
    if new_inventory < 0 then
      (.error (.invalidAdjustment product.inventory quantity), cat)
    else
      (.ok { product with inventory := new_inventory },
       updateFirst cat product_id (fun p => { p with inventory := new_inventory }))

/-- A requested line passes both per-line checks of the pricing loop: its
product is found and has at least the requested stock. -/
def lineOk (cat : Catalog) (item : OrderItemCreate) : Bool :=
  match findProduct cat item.product_id with
  | none => false
  | some p => decide (item.quantity ≤ p.inventory)

/-- The total quantity an order requests of a given product id, across all of
its lines. -/
def totalRequested (items : List OrderItemCreate) (pid : Int) : Int :=
  ((items.filter (fun it => it.product_id == pid)).map (fun it => it.quantity)).sum

end OrderProcessing
namespace OrderProcessing

/-! ### Basic lemmas about the pricing loop -/

theorem priceItems_nil (cfg : Config) (cat : Catalog) :
    priceItems cfg cat [] = .ok ([], 0) := rfl

theorem priceItems_cons_notFound {cat : Catalog} {item : OrderItemCreate}
    (cfg : Config) (rest : List OrderItemCreate)
    (hfind : findProduct cat item.product_id = none) :
    priceItems cfg cat (item :: rest) = .error (.productNotFound item.product_id) := by
  simp only [priceItems, hfind]

theorem priceItems_cons_short {cat : Catalog} {item : OrderItemCreate} {product : Product}
    (cfg : Config) (rest : List OrderItemCreate)
    (hfind : findProduct cat item.product_id = some product)
    (hshort : product.inventory < item.quantity) :
    priceItems cfg cat (item :: rest)
      = .error (.insufficientInventory product.name item.quantity product.inventory) := by
  simp only [priceItems, hfind, if_pos hshort]

theorem priceItems_cons_ok_inv {cfg : Config} {cat : Catalog} {item : OrderItemCreate}
    {rest : List OrderItemCreate} {priced : List PricedItem} {sub : ℚ}
    (h : priceItems cfg cat (item :: rest) = .ok (priced, sub)) :
    ∃ product pricedRest subRest,
      findProduct cat item.product_id = some product ∧
      ¬ product.inventory < item.quantity ∧
      priceItems cfg cat rest = .ok (pricedRest, subRest) ∧
      priced = { product_id := item.product_id
                 quantity := item.quantity
                 unit_price :=
                   if cfg.BULK_DISCOUNT_THRESHOLD ≤ item.quantity then
                     product.price * (1 - (cfg.BULK_DISCOUNT_PERCENT : ℚ) / 100)
                   else product.price
                 discount_applied := decide (cfg.BULK_DISCOUNT_THRESHOLD ≤ item.quantity) }
                :: pricedRest ∧
      sub = (if cfg.BULK_DISCOUNT_THRESHOLD ≤ item.quantity then
               product.price * (1 - (cfg.BULK_DISCOUNT_PERCENT : ℚ) / 100)
             else product.price) * (item.quantity : ℚ) + subRest := by
  cases hfind : findProduct cat item.product_id with
  | none => simp [priceItems, hfind] at h
  | some product =>
    by_cases hshort : product.inventory < item.quantity
    · simp [priceItems, hfind, hshort] at h
    · cases hrest : priceItems cfg cat rest with
      | error e => simp [priceItems, hfind, hshort, hrest] at h
      | ok pr =>
        obtain ⟨pricedRest, subRest⟩ := pr
        refine ⟨product, pricedRest, subRest, rfl, hshort, rfl, ?_⟩
        simp only [priceItems, hfind, if_neg hshort, hrest] at h
        obtain ⟨h1, h2⟩ := Prod.mk.injEq .. ▸ Except.ok.inj h
        exact ⟨h1.symm, h2.symm⟩

theorem priceItems_cons_error_iff {cfg : Config} {cat : Catalog} {item : OrderItemCreate}
    (rest : List OrderItemCreate) (e : OrderError)
    (hok : lineOk cat item = true) :
    priceItems cfg cat (item :: rest) = .error e ↔ priceItems cfg cat rest = .error e := by
  unfold lineOk at hok
  cases hfind : findProduct cat item.product_id with
  | none => rw [hfind] at hok; exact absurd hok (by simp)
  | some product =>
    rw [hfind] at hok
    have hle : item.quantity ≤ product.inventory := of_decide_eq_true hok
    have hshort : ¬ product.inventory < item.quantity := not_lt.mpr hle
    cases hrest : priceItems cfg cat rest with
    | error er => simp [priceItems, hfind, if_neg hshort, hrest]
    | ok pr =>
      obtain ⟨pricedRest, subRest⟩ := pr
      simp [priceItems, hfind, if_neg hshort, hrest]

theorem priceItems_append_error_iff {cfg : Config} {cat : Catalog}
    (pre rest : List OrderItemCreate) (e : OrderError)
    (hpre : ∀ it ∈ pre, lineOk cat it = true) :
    priceItems cfg cat (pre ++ rest) = .error e ↔ priceItems cfg cat rest = .error e := by
  induction pre with
  | nil => simp
  | cons it pre ih =>
    rw [List.cons_append,
        priceItems_cons_error_iff (pre ++ rest) e (hpre it (List.mem_cons_self it pre))]
    exact ih (fun x hx => hpre x (List.mem_cons_of_mem it hx))

/-! ### Inversion of a successful `createOrder` -/

theorem createOrder_ok_inv {cfg : Config} {cat : Catalog} {order : OrderCreate}
    {commitOk : Bool} {rec : OrderRecord} {finalCat : Catalog}
    (h : createOrder cfg cat order commitOk = (.ok rec, finalCat)) :
    commitOk = true ∧
    ∃ sub : ℚ,
      priceItems cfg cat order.items = .ok (rec.items, sub) ∧
      rec.customer_name = order.customer_name ∧
      rec.customer_email = order.customer_email ∧
      rec.subtotal = sub ∧
      rec.shipping_fee
        = (if sub < cfg.FREE_SHIPPING_THRESHOLD then cfg.SHIPPING_FEE else 0) ∧
      rec.total_amount = rec.subtotal + rec.shipping_fee ∧
      finalCat = decrementStock cat order.items := by
  cases hp : priceItems cfg cat order.items with
  | error e => simp [createOrder, hp] at h
  | ok pr =>
    obtain ⟨priced, sub⟩ := pr
    cases commitOk with
    | false => simp [createOrder, hp] at h
    | true =>
      simp only [createOrder, hp] at h
      obtain ⟨h1, h2⟩ := Prod.mk.injEq .. ▸ h
      have hrec := Except.ok.inj h1
      subst hrec
      exact ⟨rfl, sub, rfl, rfl, rfl, rfl, rfl, rfl, h2.symm⟩

end OrderProcessing
namespace OrderProcessing

/-! ### Lemmas about stock mutation -/

theorem findProduct_cons (p : Product) (rest : Catalog) (pid : Int) :
    findProduct (p :: rest) pid = if p.id = pid then some p else findProduct rest pid := by
  by_cases h : p.id = pid
  · simp [findProduct, h]
  · simp [findProduct, h]

theorem updateFirst_id_map (cat : Catalog) (pid : Int) (f : Product → Product)
    (hf : ∀ p, (f p).id = p.id) :
    (updateFirst cat pid f).map Product.id = cat.map Product.id := by
  induction cat with
  | nil => rfl
  | cons p rest ih =>
    by_cases hp : p.id = pid
    · simp [updateFirst, hp, hf]
    · simp [updateFirst, hp, ih]

theorem updateFirst_eq_map {cat : Catalog} (pid : Int) (f : Product → Product)
    (hids : (cat.map Product.id).Nodup) :
    updateFirst cat pid f = cat.map (fun p => if p.id = pid then f p else p) := by
  induction cat with
  | nil => rfl
  | cons p rest ih =>
    simp only [List.map_cons, List.nodup_cons] at hids
    by_cases hp : p.id = pid
    · simp only [updateFirst, if_pos hp, List.map_cons]
      congr 1
      have hrest : ∀ q ∈ rest, (if q.id = pid then f q else q) = q := by
        intro q hq
        have hne : q.id ≠ pid := fun he => hids.1 (hp ▸ he ▸ List.mem_map_of_mem Product.id hq)
        rw [if_neg hne]
      rw [List.map_congr_left hrest, List.map_id']
    · simp only [updateFirst, if_neg hp, List.map_cons, ih hids.2]

theorem findProduct_updateFirst (cat : Catalog) (pid : Int) (f : Product → Product)
    (hf : ∀ p, (f p).id = p.id) :
    findProduct (updateFirst cat pid f) pid = (findProduct cat pid).map f := by
  induction cat with
  | nil => rfl
  | cons p rest ih =>
    by_cases hp : p.id = pid
    · rw [show updateFirst (p :: rest) pid f = f p :: rest from by rw [updateFirst, if_pos hp],
        findProduct_cons, findProduct_cons, if_pos hp, if_pos (by rw [hf p]; exact hp)]
      rfl
    · rw [show updateFirst (p :: rest) pid f = p :: updateFirst rest pid f from by
          rw [updateFirst, if_neg hp],
        findProduct_cons, findProduct_cons, if_neg hp, if_neg hp]
      exact ih

theorem totalRequested_nil (pid : Int) : totalRequested [] pid = 0 := rfl

theorem totalRequested_cons (it : OrderItemCreate) (items : List OrderItemCreate) (pid : Int) :
    totalRequested (it :: items) pid
      = (if it.product_id = pid then it.quantity else 0) + totalRequested items pid := by
  by_cases h : it.product_id = pid
  · simp [totalRequested, List.filter_cons, h]
  · simp [totalRequested, List.filter_cons, h]

theorem totalRequested_not_mem (items : List OrderItemCreate) (pid : Int)
    (h : ∀ it ∈ items, it.product_id ≠ pid) : totalRequested items pid = 0 := by
  induction items with
  | nil => rfl
  | cons it rest ih =>
    rw [totalRequested_cons, if_neg (h it (List.mem_cons_self it rest)),
      ih (fun x hx => h x (List.mem_cons_of_mem it hx)), add_zero]

theorem decrementStock_eq_map (items : List OrderItemCreate) (cat : Catalog)
    (hids : (cat.map Product.id).Nodup) :
    decrementStock cat items
      = cat.map (fun p => { p with inventory := p.inventory - totalRequested items p.id }) := by
  induction items generalizing cat with
  | nil =>
    have h : ∀ p ∈ cat,
        ({ p with inventory := p.inventory - totalRequested [] p.id } : Product) = p := by
      intro p _
      simp [totalRequested_nil]
    rw [List.map_congr_left h, List.map_id']
    rfl
  | cons it rest ih =>
    have hids2 : ((updateFirst cat it.product_id
        (fun p => { p with inventory := p.inventory - it.quantity })).map Product.id).Nodup := by
      rw [updateFirst_id_map cat it.product_id
        (fun p => { p with inventory := p.inventory - it.quantity }) (fun p => rfl)]
      exact hids
    rw [show decrementStock cat (it :: rest)
          = decrementStock (updateFirst cat it.product_id
              (fun p => { p with inventory := p.inventory - it.quantity })) rest from rfl,
      ih _ hids2, updateFirst_eq_map _ _ hids, List.map_map]
    apply List.map_congr_left
    intro p _
    by_cases hid : p.id = it.product_id
    · simp only [Function.comp_apply, if_pos hid, totalRequested_cons, if_pos hid.symm]
      simp [sub_sub]
    · have hne : it.product_id ≠ p.id := fun he => hid he.symm
      simp only [Function.comp_apply, if_neg hid, totalRequested_cons, if_neg hne, zero_add]

end OrderProcessing
namespace OrderProcessing

/-! ### Per-line characterisation of a successful pricing run -/

theorem priceItems_ok_forall2 {cfg : Config} {cat : Catalog} :
    ∀ {items : List OrderItemCreate} {priced : List PricedItem} {sub : ℚ},
      priceItems cfg cat items = .ok (priced, sub) →
      List.Forall₂ (fun (item : OrderItemCreate) (pit : PricedItem) =>
        ∃ product, findProduct cat item.product_id = some product ∧
          item.quantity ≤ product.inventory ∧
          pit.product_id = item.product_id ∧
          pit.quantity = item.quantity ∧
          (cfg.BULK_DISCOUNT_THRESHOLD ≤ item.quantity →
            pit.unit_price = product.price * (1 - (cfg.BULK_DISCOUNT_PERCENT : ℚ) / 100) ∧
            pit.discount_applied = true) ∧
          (item.quantity < cfg.BULK_DISCOUNT_THRESHOLD →
            pit.unit_price = product.price ∧
            pit.discount_applied = false)) items priced := by
  intro items
  induction items with
  | nil =>
    intro priced sub h
    simp only [priceItems, Except.ok.injEq, Prod.mk.injEq] at h
    rw [← h.1]
    exact List.Forall₂.nil
  | cons item rest ih =>
    intro priced sub h
    obtain ⟨product, pricedRest, subRest, hfind, hge, hrest, hpriced, -⟩ :=
      priceItems_cons_ok_inv h
    subst hpriced
    refine List.Forall₂.cons ⟨product, hfind, not_lt.mp hge, rfl, rfl, ?_, ?_⟩ (ih hrest)
    · intro hth
      simp only [if_pos hth, decide_eq_true hth]
      exact ⟨trivial, trivial⟩
    · intro hlt
      have hnth := not_le.mpr hlt
      simp only [if_neg hnth, decide_eq_false hnth]
      exact ⟨trivial, trivial⟩

theorem priceItems_ok_subtotal {cfg : Config} {cat : Catalog} :
    ∀ {items : List OrderItemCreate} {priced : List PricedItem} {sub : ℚ},
      priceItems cfg cat items = .ok (priced, sub) →
      sub = (priced.map (fun pit => pit.unit_price * (pit.quantity : ℚ))).sum := by
  intro items
  induction items with
  | nil =>
    intro priced sub h
    simp only [priceItems, Except.ok.injEq, Prod.mk.injEq] at h
    rw [← h.1, ← h.2]
    rfl
  | cons item rest ih =>
    intro priced sub h
    obtain ⟨product, pricedRest, subRest, hfind, hge, hrest, hpriced, hsub⟩ :=
      priceItems_cons_ok_inv h
    subst hpriced
    rw [hsub, ih hrest, List.map_cons, List.sum_cons]

end OrderProcessing
namespace OrderProcessing

/-! ### Claim theorems -/

/-- C1: in a successful `create_order`, each requested line is priced from
its own product: when the line's quantity is at least
`BULK_DISCOUNT_THRESHOLD`, its unit price is the catalog price times
`1 - BULK_DISCOUNT_PERCENT/100` and the discount flag is set; when it is
below the threshold, the unit price is the catalog price and the flag is
clear.  The pricing of the `i`-th line depends only on that line's quantity
and its product's catalog entry — the relation paired by `List.Forall₂` never
mentions any other line of the order. -/
theorem create_order_bulk_discount_per_line
    (cfg : Config) (cat : Catalog) (order : OrderCreate) (commitOk : Bool)
    (rec : OrderRecord) (finalCat : Catalog)
    (h : createOrder cfg cat order commitOk = (.ok rec, finalCat)) :
    List.Forall₂ (fun (item : OrderItemCreate) (pit : PricedItem) =>
      ∃ product, findProduct cat item.product_id = some product ∧
        (cfg.BULK_DISCOUNT_THRESHOLD ≤ item.quantity →
          pit.unit_price = product.price * (1 - (cfg.BULK_DISCOUNT_PERCENT : ℚ) / 100) ∧
          pit.discount_applied = true) ∧
        (item.quantity < cfg.BULK_DISCOUNT_THRESHOLD →
          pit.unit_price = product.price ∧
          pit.discount_applied = false)) order.items rec.items := by
  obtain ⟨-, sub, hp, -, -, -, -, -, -⟩ := createOrder_ok_inv h
  exact (priceItems_ok_forall2 hp).imp (fun a b hab => by
    obtain ⟨product, hfind, -, -, -, hE, hF⟩ := hab
    exact ⟨product, hfind, hE, hF⟩)

theorem create_order_bulk_discount_per_line_witness :
    createOrder defaultConfig [⟨1, "P1", "d", 10, 20⟩, ⟨2, "P2", "d", 20, 30⟩]
        { customer_name := "c", customer_email := "e", items := [⟨1, 6⟩, ⟨2, 1⟩] } true
      = (.ok { customer_name := "c", customer_email := "e",
               items := [⟨1, 6, 9, true⟩, ⟨2, 1, 20, false⟩],
               subtotal := 74, shipping_fee := 0, total_amount := 74 },
         [⟨1, "P1", "d", 10, 14⟩, ⟨2, "P2", "d", 20, 29⟩])
    ∧ List.Forall₂ (fun (item : OrderItemCreate) (pit : PricedItem) =>
        ∃ product,
          findProduct [⟨1, "P1", "d", 10, 20⟩, ⟨2, "P2", "d", 20, 30⟩] item.product_id
            = some product ∧
          (defaultConfig.BULK_DISCOUNT_THRESHOLD ≤ item.quantity →
            pit.unit_price
              = product.price * (1 - (defaultConfig.BULK_DISCOUNT_PERCENT : ℚ) / 100) ∧
            pit.discount_applied = true) ∧
          (item.quantity < defaultConfig.BULK_DISCOUNT_THRESHOLD →
            pit.unit_price = product.price ∧
            pit.discount_applied = false))
        [⟨1, 6⟩, ⟨2, 1⟩] [⟨1, 6, 9, true⟩, ⟨2, 1, 20, false⟩] :=
  ⟨by norm_num [createOrder, priceItems, findProduct, decrementStock, updateFirst, defaultConfig],
   create_order_bulk_discount_per_line defaultConfig
    [⟨1, "P1", "d", 10, 20⟩, ⟨2, "P2", "d", 20, 30⟩]
    { customer_name := "c", customer_email := "e", items := [⟨1, 6⟩, ⟨2, 1⟩] } true
    { customer_name := "c", customer_email := "e",
      items := [⟨1, 6, 9, true⟩, ⟨2, 1, 20, false⟩],
      subtotal := 74, shipping_fee := 0, total_amount := 74 }
    [⟨1, "P1", "d", 10, 14⟩, ⟨2, "P2", "d", 20, 29⟩]
    (by norm_num [createOrder, priceItems, findProduct, decrementStock, updateFirst, defaultConfig])⟩

/-- C2: a successful `create_order` charges the flat shipping fee exactly
when the subtotal is strictly below the free-shipping threshold and waives it
otherwise, the total is exactly subtotal plus shipping fee, and the subtotal
is exactly the sum of `unit_price × quantity` over the order's lines.  (The
equivalence in the first conjunct uses that the configured fee is nonzero, as
is the documented $5 default; with a zero fee the two sides of the first
conjunct are equal anyway.) -/
theorem create_order_shipping_and_total
    (cfg : Config) (cat : Catalog) (order : OrderCreate) (commitOk : Bool)
    (rec : OrderRecord) (finalCat : Catalog)
    (hfee : cfg.SHIPPING_FEE ≠ 0)
    (h : createOrder cfg cat order commitOk = (.ok rec, finalCat)) :
    (rec.shipping_fee = cfg.SHIPPING_FEE ↔ rec.subtotal < cfg.FREE_SHIPPING_THRESHOLD) ∧
    (cfg.FREE_SHIPPING_THRESHOLD ≤ rec.subtotal → rec.shipping_fee = 0) ∧
    rec.total_amount = rec.subtotal + rec.shipping_fee ∧
    rec.subtotal = (rec.items.map (fun pit => pit.unit_price * (pit.quantity : ℚ))).sum := by
  obtain ⟨-, sub, hp, -, -, hsubtotal, hship, htotal, -⟩ := createOrder_ok_inv h
  rw [← hsubtotal] at hship
  refine ⟨⟨fun hfe => ?_, fun hlt => by rw [hship, if_pos hlt]⟩,
    fun hge => by rw [hship, if_neg (not_lt.mpr hge)], htotal,
    hsubtotal.trans (priceItems_ok_subtotal hp)⟩
  by_contra hnot
  rw [hship, if_neg hnot] at hfe
  exact hfee hfe.symm

theorem create_order_shipping_and_total_witness :
    defaultConfig.SHIPPING_FEE ≠ 0
    ∧ createOrder defaultConfig [⟨1, "P1", "d", 10, 20⟩, ⟨3, "P3", "d", 5, 50⟩]
        { customer_name := "c", customer_email := "e", items := [⟨1, 2⟩, ⟨3, 3⟩] } true
      = (.ok { customer_name := "c", customer_email := "e",
               items := [⟨1, 2, 10, false⟩, ⟨3, 3, 5, false⟩],
               subtotal := 35, shipping_fee := 5, total_amount := 40 },
         [⟨1, "P1", "d", 10, 18⟩, ⟨3, "P3", "d", 5, 47⟩])
    ∧ ((5 : ℚ) = defaultConfig.SHIPPING_FEE ↔
        (35 : ℚ) < defaultConfig.FREE_SHIPPING_THRESHOLD) := by
  refine ⟨by norm_num [defaultConfig], by norm_num [createOrder, priceItems, findProduct, decrementStock, updateFirst, defaultConfig], ?_⟩
  have hw := create_order_shipping_and_total defaultConfig
    [⟨1, "P1", "d", 10, 20⟩, ⟨3, "P3", "d", 5, 50⟩]
    { customer_name := "c", customer_email := "e", items := [⟨1, 2⟩, ⟨3, 3⟩] } true
    { customer_name := "c", customer_email := "e",
      items := [⟨1, 2, 10, false⟩, ⟨3, 3, 5, false⟩],
      subtotal := 35, shipping_fee := 5, total_amount := 40 }
    [⟨1, "P1", "d", 10, 18⟩, ⟨3, "P3", "d", 5, 47⟩] (by norm_num [defaultConfig])
    (by norm_num [createOrder, priceItems, findProduct, decrementStock, updateFirst, defaultConfig])
  exact hw.1

/-- C9: `create_order` accepts a request with an empty items list and
succeeds, producing an order with zero lines, subtotal `0`, shipping fee
`SHIPPING_FEE` (the subtotal `0` is below the positive free-shipping
threshold), total `SHIPPING_FEE`, and no product's stock changes.  The
request schema puts no lower bound on the number of items. -/
theorem create_order_empty_items
    (cfg : Config) (cat : Catalog) (name email : String)
    (hT : 0 < cfg.FREE_SHIPPING_THRESHOLD) :
    createOrder cfg cat { customer_name := name, customer_email := email, items := [] } true
      = (.ok { customer_name := name, customer_email := email, items := [],
               subtotal := 0, shipping_fee := cfg.SHIPPING_FEE,
               total_amount := cfg.SHIPPING_FEE }, cat) := by
  simp [createOrder, priceItems, decrementStock, if_pos hT]

theorem create_order_empty_items_witness :
    (0 : ℚ) < defaultConfig.FREE_SHIPPING_THRESHOLD
    ∧ createOrder defaultConfig [⟨1, "A", "d", 10, 5⟩]
        { customer_name := "Bob", customer_email := "b", items := [] } true
      = (.ok { customer_name := "Bob", customer_email := "b", items := [],
               subtotal := 0, shipping_fee := defaultConfig.SHIPPING_FEE,
               total_amount := defaultConfig.SHIPPING_FEE }, [⟨1, "A", "d", 10, 5⟩]) :=
  ⟨by norm_num [defaultConfig], create_order_empty_items defaultConfig [⟨1, "A", "d", 10, 5⟩]
    "Bob" "b" (by norm_num [defaultConfig])⟩

/-- C10: `create_order` is deterministic.  The embedding is a pure
function of the configuration, the catalog state, the request and the storage
layer's commit answer, so two runs over equal inputs produce the same result
— the same error or the same priced lines, subtotal, shipping fee, total and
resulting stock. -/
theorem create_order_deterministic
    (cfg1 cfg2 : Config) (cat1 cat2 : Catalog) (o1 o2 : OrderCreate) (c1 c2 : Bool)
    (hcfg : cfg1 = cfg2) (hcat : cat1 = cat2) (ho : o1 = o2) (hc : c1 = c2) :
    createOrder cfg1 cat1 o1 c1 = createOrder cfg2 cat2 o2 c2 := by
  rw [hcfg, hcat, ho, hc]

theorem create_order_deterministic_witness :
    createOrder defaultConfig [⟨1, "A", "d", 10, 5⟩]
        { customer_name := "c", customer_email := "e", items := [⟨1, 2⟩] } true
      = createOrder defaultConfig [⟨1, "A", "d", 10, 5⟩]
        { customer_name := "c", customer_email := "e", items := [⟨1, 2⟩] } true :=
  create_order_deterministic defaultConfig defaultConfig
    [⟨1, "A", "d", 10, 5⟩] [⟨1, "A", "d", 10, 5⟩]
    { customer_name := "c", customer_email := "e", items := [⟨1, 2⟩] }
    { customer_name := "c", customer_email := "e", items := [⟨1, 2⟩] }
    true true rfl rfl rfl rfl

end OrderProcessing
namespace OrderProcessing

/-- C4, counterexample: the claim says any request referencing a missing
product fails with the not-found error for the first missing product.  Here
the request references the absent product id 2, yet the run fails with the
insufficient-inventory error raised by the *earlier* line for product 1
(requested 10, available 5): within a line the lookup precedes the stock
check, but an earlier line's failure pre-empts a later line's missing
product. -/
theorem create_order_missing_product_preempted :
    createOrder defaultConfig [⟨1, "A", "d", 10, 5⟩]
        { customer_name := "c", customer_email := "e", items := [⟨1, 10⟩, ⟨2, 1⟩] } true
      = (.error (.insufficientInventory "A" 10 5), [⟨1, "A", "d", 10, 5⟩])
    ∧ OrderError.insufficientInventory "A" 10 5 ≠ OrderError.productNotFound 2 :=
  ⟨rfl, by decide⟩

/-- C4 (amended): if every line before the first line referencing a
missing product passes the inventory check, `create_order` fails with the
404 not-found error carrying that first missing product's id (the check runs
per line, in request order, and short-circuits at the first failure), and the
catalog — every product's stock — is unchanged; no order value is
produced. -/
theorem create_order_first_missing_product
    (cfg : Config) (cat : Catalog) (order : OrderCreate) (commitOk : Bool)
    (pre : List OrderItemCreate) (bad : OrderItemCreate) (rest : List OrderItemCreate)
    (hsplit : order.items = pre ++ bad :: rest)
    (hpre : ∀ it ∈ pre, lineOk cat it = true)
    (hbad : findProduct cat bad.product_id = none) :
    createOrder cfg cat order commitOk
      = (.error (.productNotFound bad.product_id), cat) := by
  have herr : priceItems cfg cat order.items = .error (.productNotFound bad.product_id) := by
    rw [hsplit]
    exact (priceItems_append_error_iff pre (bad :: rest) _ hpre).mpr
      (priceItems_cons_notFound cfg rest hbad)
  simp [createOrder, herr]

theorem create_order_first_missing_product_witness :
    ([⟨1, 1⟩, ⟨2, 1⟩] : List OrderItemCreate) = [⟨1, 1⟩] ++ ⟨2, 1⟩ :: []
    ∧ (∀ it ∈ ([⟨1, 1⟩] : List OrderItemCreate), lineOk [⟨1, "A", "d", 10, 5⟩] it = true)
    ∧ findProduct [⟨1, "A", "d", 10, 5⟩] 2 = none
    ∧ createOrder defaultConfig [⟨1, "A", "d", 10, 5⟩]
        { customer_name := "c", customer_email := "e", items := [⟨1, 1⟩, ⟨2, 1⟩] } true
      = (.error (.productNotFound 2), [⟨1, "A", "d", 10, 5⟩]) :=
  ⟨rfl, by decide, rfl,
   create_order_first_missing_product defaultConfig [⟨1, "A", "d", 10, 5⟩]
    { customer_name := "c", customer_email := "e", items := [⟨1, 1⟩, ⟨2, 1⟩] } true
    [⟨1, 1⟩] ⟨2, 1⟩ [] rfl (by decide) rfl⟩

/-- C5, counterexample: the claim says the insufficient-inventory failure
carries the offending *product id*.  Two runs whose failing products differ
only in their id (id 1 versus id 2, same name, price and stock) produce the
very same error value, so the error cannot carry the product id; in the code
the 400 detail interpolates the product's *name* (`product.name`), not its
id. -/
theorem insufficient_error_preserves_no_id :
    (createOrder defaultConfig [⟨1, "A", "d", 10, 3⟩]
        { customer_name := "c", customer_email := "e", items := [⟨1, 5⟩] } true).1
      = (createOrder defaultConfig [⟨2, "A", "d", 10, 3⟩]
        { customer_name := "c", customer_email := "e", items := [⟨2, 5⟩] } true).1
    ∧ (createOrder defaultConfig [⟨1, "A", "d", 10, 3⟩]
        { customer_name := "c", customer_email := "e", items := [⟨1, 5⟩] } true).1
      = .error (.insufficientInventory "A" 5 3) :=
  ⟨rfl, rfl⟩

/-- C5 (amended): if every line before a given line passes both checks,
that line's product exists, and its available stock is below the requested
quantity, then `create_order` fails with the 400 insufficient-inventory error
carrying that product's *name*, the requested quantity and the available
stock (the stock read is the catalog value — no earlier decrement has
happened), and the catalog is unchanged; no order value is produced. -/
theorem create_order_insufficient_inventory
    (cfg : Config) (cat : Catalog) (order : OrderCreate) (commitOk : Bool)
    (pre : List OrderItemCreate) (bad : OrderItemCreate) (rest : List OrderItemCreate)
    (product : Product)
    (hsplit : order.items = pre ++ bad :: rest)
    (hpre : ∀ it ∈ pre, lineOk cat it = true)
    (hfound : findProduct cat bad.product_id = some product)
    (hshort : product.inventory < bad.quantity) :
    createOrder cfg cat order commitOk
      = (.error (.insufficientInventory product.name bad.quantity product.inventory), cat) := by
  have herr : priceItems cfg cat order.items
      = .error (.insufficientInventory product.name bad.quantity product.inventory) := by
    rw [hsplit]
    exact (priceItems_append_error_iff pre (bad :: rest) _ hpre).mpr
      (priceItems_cons_short cfg rest hfound hshort)
  simp [createOrder, herr]

theorem create_order_insufficient_inventory_witness :
    ([⟨1, 1⟩, ⟨3, 20⟩] : List OrderItemCreate) = [⟨1, 1⟩] ++ ⟨3, 20⟩ :: []
    ∧ (∀ it ∈ ([⟨1, 1⟩] : List OrderItemCreate),
        lineOk [⟨1, "A", "d", 10, 5⟩, ⟨3, "B", "d", 2, 15⟩] it = true)
    ∧ findProduct [⟨1, "A", "d", 10, 5⟩, ⟨3, "B", "d", 2, 15⟩] 3
        = some ⟨3, "B", "d", 2, 15⟩
    ∧ (15 : Int) < 20
    ∧ createOrder defaultConfig [⟨1, "A", "d", 10, 5⟩, ⟨3, "B", "d", 2, 15⟩]
        { customer_name := "c", customer_email := "e", items := [⟨1, 1⟩, ⟨3, 20⟩] } true
      = (.error (.insufficientInventory "B" 20 15),
         [⟨1, "A", "d", 10, 5⟩, ⟨3, "B", "d", 2, 15⟩]) :=
  ⟨rfl, by decide, rfl, by decide,
   create_order_insufficient_inventory defaultConfig
    [⟨1, "A", "d", 10, 5⟩, ⟨3, "B", "d", 2, 15⟩]
    { customer_name := "c", customer_email := "e", items := [⟨1, 1⟩, ⟨3, 20⟩] } true
    [⟨1, 1⟩] ⟨3, 20⟩ [] ⟨3, "B", "d", 2, 15⟩ rfl (by decide) rfl (by decide)⟩

end OrderProcessing
namespace OrderProcessing

/-- C6: after a successful `create_order` against a catalog with distinct
product ids, the persisted catalog is exactly the old catalog with each
product's stock decreased by the total quantity the order's lines
request of it (zero for a product no line references); consequently every
product unreferenced by the order is kept unchanged, in place. -/
theorem create_order_stock_effect
    (cfg : Config) (cat : Catalog) (order : OrderCreate) (commitOk : Bool)
    (rec : OrderRecord) (finalCat : Catalog)
    (hids : (cat.map Product.id).Nodup)
    (h : createOrder cfg cat order commitOk = (.ok rec, finalCat)) :
    finalCat
      = cat.map (fun p => { p with inventory := p.inventory - totalRequested order.items p.id })
    ∧ ∀ p ∈ cat, (∀ it ∈ order.items, it.product_id ≠ p.id) → p ∈ finalCat := by
  obtain ⟨-, sub, hp, -, -, -, -, -, hcat⟩ := createOrder_ok_inv h
  have hmain := hcat.trans (decrementStock_eq_map order.items cat hids)
  refine ⟨hmain, ?_⟩
  intro p hpmem hnot
  rw [hmain]
  have hfix : ({ p with inventory := p.inventory - totalRequested order.items p.id } : Product)
      = p := by
    rw [totalRequested_not_mem _ _ hnot]
    simp
  exact hfix ▸ List.mem_map_of_mem _ hpmem

theorem create_order_stock_effect_witness :
    (([⟨1, "P1", "d", 10, 20⟩, ⟨3, "P3", "d", 5, 50⟩] : Catalog).map Product.id).Nodup
    ∧ createOrder defaultConfig [⟨1, "P1", "d", 10, 20⟩, ⟨3, "P3", "d", 5, 50⟩]
        { customer_name := "c", customer_email := "e", items := [⟨1, 2⟩, ⟨3, 3⟩] } true
      = (.ok { customer_name := "c", customer_email := "e",
               items := [⟨1, 2, 10, false⟩, ⟨3, 3, 5, false⟩],
               subtotal := 35, shipping_fee := 5, total_amount := 40 },
         [⟨1, "P1", "d", 10, 18⟩, ⟨3, "P3", "d", 5, 47⟩])
    ∧ ([⟨1, "P1", "d", 10, 18⟩, ⟨3, "P3", "d", 5, 47⟩] : Catalog)
      = ([⟨1, "P1", "d", 10, 20⟩, ⟨3, "P3", "d", 5, 50⟩] : Catalog).map
          (fun p => { p with inventory :=
            p.inventory - totalRequested [⟨1, 2⟩, ⟨3, 3⟩] p.id }) := by
  refine ⟨by decide, by norm_num [createOrder, priceItems, findProduct, decrementStock,
    updateFirst, defaultConfig], ?_⟩
  exact (create_order_stock_effect defaultConfig
    [⟨1, "P1", "d", 10, 20⟩, ⟨3, "P3", "d", 5, 50⟩]
    { customer_name := "c", customer_email := "e", items := [⟨1, 2⟩, ⟨3, 3⟩] } true
    { customer_name := "c", customer_email := "e",
      items := [⟨1, 2, 10, false⟩, ⟨3, 3, 5, false⟩],
      subtotal := 35, shipping_fee := 5, total_amount := 40 }
    [⟨1, "P1", "d", 10, 18⟩, ⟨3, "P3", "d", 5, 47⟩] (by decide)
    (by norm_num [createOrder, priceItems, findProduct, decrementStock,
      updateFirst, defaultConfig])).1

/-- C7: `update_product_inventory` fails with 404 when no product has the
given id; when the product exists and `current_stock + delta` is negative it
fails with the 400 invalid-adjustment error and the catalog — in particular
that product's row — is unchanged; otherwise it succeeds, returns the product
with stock `current_stock + delta`, and the catalog records that stock for
the product's id. -/
theorem update_product_inventory_spec (cat : Catalog) (pid delta : Int) :
    (findProduct cat pid = none →
      update_product_inventory cat pid delta = (.error .notFound, cat))
    ∧ ∀ p, findProduct cat pid = some p →
        (p.inventory + delta < 0 →
          update_product_inventory cat pid delta
            = (.error (.invalidAdjustment p.inventory delta), cat))
        ∧ (0 ≤ p.inventory + delta →
            update_product_inventory cat pid delta
              = (.ok { p with inventory := p.inventory + delta },
                 updateFirst cat pid (fun q => { q with inventory := p.inventory + delta }))
            ∧ findProduct (update_product_inventory cat pid delta).2 pid
              = some { p with inventory := p.inventory + delta }) := by
  constructor
  · intro hnone
    simp [update_product_inventory, hnone]
  · intro p hfound
    constructor
    · intro hneg
      simp [update_product_inventory, hfound, if_pos hneg]
    · intro hnonneg
      have hupd : update_product_inventory cat pid delta
          = (.ok { p with inventory := p.inventory + delta },
             updateFirst cat pid (fun q => { q with inventory := p.inventory + delta })) := by
        simp [update_product_inventory, hfound, if_neg (not_lt.mpr hnonneg)]
      refine ⟨hupd, ?_⟩
      rw [hupd]
      show findProduct
          (updateFirst cat pid (fun q => { q with inventory := p.inventory + delta })) pid
        = some { p with inventory := p.inventory + delta }
      rw [findProduct_updateFirst cat pid
        (fun q => { q with inventory := p.inventory + delta }) (fun q => rfl), hfound]
      rfl

theorem update_product_inventory_spec_witness :
    findProduct [⟨7, "W", "d", 2, 5⟩] 7 = some ⟨7, "W", "d", 2, 5⟩
    ∧ (0 : Int) ≤ 5 + (-3)
    ∧ update_product_inventory [⟨7, "W", "d", 2, 5⟩] 7 (-3)
        = (.ok ⟨7, "W", "d", 2, 2⟩, [⟨7, "W", "d", 2, 2⟩]) := by
  refine ⟨rfl, by decide, ?_⟩
  exact ((update_product_inventory_spec [⟨7, "W", "d", 2, 5⟩] 7 (-3)).2
    ⟨7, "W", "d", 2, 5⟩ rfl).2 (by decide) |>.1

/-- C8, counterexample: the claim says a storage write conflict during
commit is reported as a *server* error.  On a run whose pricing succeeded but
whose commit fails, the code rolls the transaction back (the catalog is
unchanged and no order is returned) but raises HTTP 400 — a client error,
not a server (5xx) error. -/
theorem commit_failure_not_server_error :
    createOrder defaultConfig [⟨1, "A", "d", 10, 5⟩]
        { customer_name := "c", customer_email := "e", items := [⟨1, 1⟩] } false
      = (.error .databaseError, [⟨1, "A", "d", 10, 5⟩])
    ∧ OrderError.status .databaseError = 400
    ∧ ¬ 500 ≤ OrderError.status .databaseError :=
  ⟨rfl, rfl, by decide⟩

/-- C8 (amended): if the storage layer reports a write conflict during
the commit of `create_order` after pricing succeeded, the whole transaction
rolls back — no order and no stock decrement is persisted, the catalog is
returned exactly as it was — and the caller receives the database error,
which the code reports with HTTP status 400, a client error (the spec's
"server error" does not match the code). -/
theorem create_order_commit_failure
    (cfg : Config) (cat : Catalog) (order : OrderCreate)
    (priced : List PricedItem) (sub : ℚ)
    (hpriced : priceItems cfg cat order.items = .ok (priced, sub)) :
    createOrder cfg cat order false = (.error .databaseError, cat)
    ∧ OrderError.status .databaseError = 400 := by
  refine ⟨?_, rfl⟩
  simp [createOrder, hpriced]

theorem create_order_commit_failure_witness :
    priceItems defaultConfig [⟨1, "A", "d", 10, 5⟩] [⟨1, 1⟩]
      = .ok ([⟨1, 1, 10, false⟩], 10)
    ∧ (createOrder defaultConfig [⟨1, "A", "d", 10, 5⟩]
        { customer_name := "c", customer_email := "e", items := [⟨1, 1⟩] } false
      = (.error .databaseError, [⟨1, "A", "d", 10, 5⟩])
      ∧ OrderError.status .databaseError = 400) :=
  ⟨by norm_num [priceItems, findProduct, defaultConfig],
   create_order_commit_failure defaultConfig [⟨1, "A", "d", 10, 5⟩]
    { customer_name := "c", customer_email := "e", items := [⟨1, 1⟩] }
    [⟨1, 1, 10, false⟩] 10
    (by norm_num [priceItems, findProduct, defaultConfig])⟩

/-- C3 is violated by the code: starting from a catalog whose every stock
is non-negative (one product, stock 5), the order with two lines for the same
product (3 + 3 = 6 > 5) is *accepted* — each line's inventory check reads the
un-decremented stock 5 — and the persisted stock ends at −1.  So `stock ≥ 0`
is not preserved by every reachable `create_order` transition. -/
theorem create_order_breaks_stock_invariant :
    (∀ p ∈ ([⟨1, "A", "d", 10, 5⟩] : Catalog), 0 ≤ p.inventory)
    ∧ createOrder defaultConfig [⟨1, "A", "d", 10, 5⟩]
        { customer_name := "c", customer_email := "e", items := [⟨1, 3⟩, ⟨1, 3⟩] } true
      = (.ok { customer_name := "c", customer_email := "e",
               items := [⟨1, 3, 10, false⟩, ⟨1, 3, 10, false⟩],
               subtotal := 60, shipping_fee := 0, total_amount := 60 },
         [⟨1, "A", "d", 10, -1⟩])
    ∧ ∃ p ∈ ([⟨1, "A", "d", 10, -1⟩] : Catalog), p.inventory < 0 := by
  refine ⟨by decide, by norm_num [createOrder, priceItems, findProduct, decrementStock,
    updateFirst, defaultConfig], ⟨⟨1, "A", "d", 10, -1⟩, by decide, by decide⟩⟩

end OrderProcessing
